import Mathlib

/-!
Verification of the posture-monitoring core (angle geometry, posture
classification, alert/break timers, session recording/scoring, calibration).

Machine floats from the source are embedded as exact rationals (for the
comparison/bookkeeping logic) or reals (for the trigonometric angle
computation); optional values are embedded as `Option`; the per-tick mutation
of the timer objects is embedded as explicit state passing.  Wall-clock time
(`time.time()` in the source) is passed as an explicit `now` argument, one
value per tick.
-/

/-- Posture quality tier.  `UNKNOWN` is the "no person / computation failed"
result of the single-file `check_posture` and of the main loop's default. -/
inductive Status where
  | GOOD
  | FAIR
  | BAD
  | UNKNOWN
deriving DecidableEq, Repr

/- Constants from configure_setting.py. -/

/-- configure_setting.GOOD_ANGLE = 170 (degrees). -/
def GOOD_ANGLE : ℚ := 170

/-- configure_setting.FAIR_ANGLE = 160 (degrees). -/
def FAIR_ANGLE : ℚ := 160

/-- configure_setting.BAD_DURATION = 180 (seconds of sustained bad posture before alert). -/
def BAD_DURATION : ℚ := 180

/-- configure_setting.ALERT_COOLDOWN = 300 (seconds between alerts). -/
def ALERT_COOLDOWN : ℚ := 300

/-- configure_setting.BREAK_INTERVAL = 1800 (seconds between break reminders). -/
def BREAK_INTERVAL : ℚ := 1800

/-- configure_setting.RECORD_EVERY = 5 (seconds between logged samples). -/
def RECORD_EVERY : ℚ := 5

/-- Calibration baseline record, as produced by posture_core.calibrate_user:
`{'good_angle': avg, 'tolerance': 10.0, 'samples': n, 'min_angle': m, 'max_angle': M}`. -/
structure Baseline (α : Type) where
  good_angle : α
  tolerance : α
  samples : ℕ
  min_angle : α
  max_angle : α
deriving DecidableEq, Repr

/-- Threshold classification with inclusive comparisons, embedding
posture_core.py lines 99-104 (`PostureAnalyzer.analyze`):
`if angle >= good_threshold: GOOD elif angle >= fair_threshold: FAIR else: BAD`. -/
def classifyInclusive {α : Type} [LinearOrderedField α]
    (good_threshold fair_threshold angle : α) : Status :=
  if good_threshold ≤ angle then Status.GOOD
  else if fair_threshold ≤ angle then Status.FAIR
  else Status.BAD

/-- Threshold classification with strict comparisons, embedding
posture_test_initial_work.py lines 82-96 (`check_posture`):
`if angle > good_threshold: GOOD elif angle > fair_threshold: FAIR else: BAD`. -/
def classifyStrict {α : Type} [LinearOrderedField α]
    (good_threshold fair_threshold angle : α) : Status :=
  if good_threshold < angle then Status.GOOD
  else if fair_threshold < angle then Status.FAIR
  else Status.BAD

/-- Threshold selection of posture_core.py lines 92-97 (`PostureAnalyzer.analyze`):
with a baseline, `good = baseline['good_angle'] - 10`, `fair = baseline['good_angle'] - 20`;
without, the fixed constants `GOOD_ANGLE`, `FAIR_ANGLE`.  Returned as (good, fair). -/
def analyzeThresholds (baseline : Option (Baseline ℚ)) : ℚ × ℚ :=
  match baseline with
  | some b => (b.good_angle - 10, b.good_angle - 20)
  | none => (GOOD_ANGLE, FAIR_ANGLE)

/-- Classification step of posture_core.py `PostureAnalyzer.analyze`
(lines 92-104), as a function of the already-computed angle. -/
def analyzeStatus (baseline : Option (Baseline ℚ)) (angle : ℚ) : Status :=
  classifyInclusive (analyzeThresholds baseline).1 (analyzeThresholds baseline).2 angle

/-- Threshold selection of posture_test_initial_work.py lines 79-80
(`check_posture` with a baseline): `good = baseline['good_angle'] - baseline['tolerance']`,
`fair = baseline['good_angle'] - 20`. -/
def checkPostureThresholds {α : Type} [LinearOrderedField α] (b : Baseline α) : α × α :=
  (b.good_angle - b.tolerance, b.good_angle - 20)

/-- Classification step of posture_test_initial_work.py `check_posture` with a
baseline (lines 79-87), as a function of the already-computed angle. -/
def check_posture_status (b : Baseline ℚ) (angle : ℚ) : Status :=
  classifyStrict (checkPostureThresholds b).1 (checkPostureThresholds b).2 angle

/-- Classification with baseline following the spec wording ("good_threshold =
baseline.good_angle − baseline.tolerance; fair_threshold = baseline.good_angle − 20")
combined with the inclusive decision rule the spec recommends.  This definition
follows the spec text, for comparison with the source-derived `analyzeStatus`. -/
def classifySpecBaseline (b : Baseline ℚ) (angle : ℚ) : Status :=
  classifyInclusive (b.good_angle - b.tolerance) (b.good_angle - 20) angle

/-- MediaPipe landmark: a point with x, y, z coordinates (the angle code reads
only x and y). -/
structure Landmark where
  x : ℝ
  y : ℝ
  z : ℝ

/-- Two-argument arctangent, the embedding of Python's `math.atan2(y, x)`:
the argument of the complex number x + y·i, in (-π, π]. -/
noncomputable def atan2 (y x : ℝ) : ℝ :=
  Complex.arg ⟨x, y⟩

/-- Angle at vertex b formed by points a-b-c, embedding
posture_core.py `PostureAnalyzer._calculate_angle` (lines 108-128) and the
identical posture_test_initial_work.py `calculate_angle` (lines 48-55):
`radians = atan2(c.y-b.y, c.x-b.x) - atan2(a.y-b.y, a.x-b.x);
angle = abs(radians * 180 / pi); if angle > 180: angle = 360 - angle`. -/
noncomputable def calculate_angle (a b c : Landmark) : ℝ :=
  let radians := atan2 (c.y - b.y) (c.x - b.x) - atan2 (a.y - b.y) (a.x - b.x)
  let angle := |radians * 180 / Real.pi|
  if 180 < angle then 360 - angle else angle

/-- Single-file classifier, embedding posture_test_initial_work.py
`check_posture` (lines 58-99).  The landmark collection is a partial map from
indices; the `try/except` that turns any missing required landmark
(LEFT_EAR = 7, LEFT_SHOULDER = 11, LEFT_HIP = 23) into `("UNKNOWN", 0)` is
embedded by matching on the three lookups.  Fixed thresholds are
Config.GOOD_POSTURE_ANGLE = 170 and Config.FAIR_POSTURE_ANGLE = 160. -/
noncomputable def check_posture (landmarks : ℕ → Option Landmark)
    (baseline : Option (Baseline ℝ)) : Status × ℝ :=
  match landmarks 7, landmarks 11, landmarks 23 with
  | some ear, some shoulder, some hip =>
      let angle := calculate_angle ear shoulder hip
      match baseline with
      | some b =>
          (classifyStrict (b.good_angle - b.tolerance) (b.good_angle - 20) angle, angle)
      | none =>
          (classifyStrict 170 160 angle, angle)
  | _, _, _ => (Status.UNKNOWN, 0)

/-- State of features.py `AlertManager`: `bad_start` (timestamp when bad posture
started, or none), `last_alert` (timestamp of last alert, or none),
`alert_count`. -/
structure AlertState where
  bad_start : Option ℚ
  last_alert : Option ℚ
  alert_count : ℕ
deriving DecidableEq, Repr

/-- Fresh state from `AlertManager.__init__`: both timestamps unset, zero alerts. -/
def AlertState.init : AlertState := ⟨none, none, 0⟩

/-- Per-tick transition of features.py `AlertManager.check` (lines 25-53):
on BAD, start the timer if unset, and fire (set `last_alert := now`, increment
`alert_count`) when the bad duration has reached BAD_DURATION and the cooldown
(no previous alert, or ALERT_COOLDOWN elapsed since it) permits; on any other
status, clear `bad_start`. -/
def AlertManager.check (s : AlertState) (status : Status) (now : ℚ) : AlertState :=
  if status = Status.BAD then
    let bs := s.bad_start.getD now
    let duration := now - bs
    if BAD_DURATION ≤ duration then
      match s.last_alert with
      | none => ⟨some bs, some now, s.alert_count + 1⟩
      | some la =>
          if ALERT_COOLDOWN ≤ now - la then ⟨some bs, some now, s.alert_count + 1⟩
          else ⟨some bs, some la, s.alert_count⟩
    else ⟨some bs, s.last_alert, s.alert_count⟩
  else ⟨none, s.last_alert, s.alert_count⟩

/-- State of features.py `BreakReminder`: `last_break` timestamp and `break_count`. -/
structure BreakState where
  last_break : ℚ
  break_count : ℕ
deriving DecidableEq, Repr

/-- Per-tick transition of features.py `BreakReminder.check` (lines 89-96):
when BREAK_INTERVAL has elapsed since `last_break`, dispatch a reminder, reset
`last_break := now` and increment `break_count`; otherwise no change. -/
def BreakReminder.check (s : BreakState) (now : ℚ) : BreakState :=
  if BREAK_INTERVAL ≤ now - s.last_break then ⟨now, s.break_count + 1⟩ else s

/-- Round-half-to-even on rationals, the embedding of Python's built-in
`round` applied to an exact value: nearest integer, ties to the even one. -/
def round_half_even (x : ℚ) : ℤ :=
  if x - ⌊x⌋ < 1 / 2 then ⌊x⌋
  else if 1 / 2 < x - ⌊x⌋ then ⌊x⌋ + 1
  else if ⌊x⌋ % 2 = 0 then ⌊x⌋ else ⌊x⌋ + 1

/-- Python's `round(x, ndigits)` on an exact rational: round-half-to-even at
the given number of decimal places. -/
def pyRound (ndigits : ℕ) (x : ℚ) : ℚ :=
  (round_half_even (x * 10 ^ ndigits) : ℚ) / 10 ^ ndigits

/-- One logged sample from features.py `SessionLogger.record`:
`{'timestamp': ..., 'status': status, 'angle': round(angle, 2)}`. -/
structure LogEntry where
  timestamp : ℚ
  status : Status
  angle : ℚ
deriving DecidableEq, Repr

/-- State of features.py `SessionLogger`: the accumulated log and
`last_record`, the time of the last logged sample (initialized at construction
to the construction time). -/
structure LoggerState where
  log : List LogEntry
  last_record : ℚ
deriving DecidableEq, Repr

/-- features.py `SessionLogger.record` (lines 133-148): append an entry only
when RECORD_EVERY seconds have elapsed since `last_record`; otherwise no-op. -/
def SessionLogger.record (s : LoggerState) (status : Status) (angle : ℚ) (now : ℚ) :
    LoggerState :=
  if RECORD_EVERY ≤ now - s.last_record then
    ⟨s.log ++ [⟨now, status, pyRound 2 angle⟩], now⟩
  else s

/-- Count of log entries with the given status. -/
def countStatus (st : Status) (log : List LogEntry) : ℕ :=
  log.countP (fun e => e.status == st)

/-- features.py `SessionLogger.get_score` (lines 150-172): 0.0 on an empty
log, otherwise `round((good*100 + fair*60 + bad*20) / total, 1)`. -/
def SessionLogger.get_score (log : List LogEntry) : ℚ :=
  if log.isEmpty then 0
  else
    pyRound 1
      (((countStatus Status.GOOD log * 100 + countStatus Status.FAIR log * 60 +
          countStatus Status.BAD log * 20 : ℕ) : ℚ) / (log.length : ℚ))

/-- Minimum of a list of rationals (Python `min`; the 0 default is never
reached by `calibrate_user`, which guards on at least 50 samples). -/
def listMin : List ℚ → ℚ
  | [] => 0
  | x :: xs => xs.foldl min x

/-- Maximum of a list of rationals (Python `max`; the 0 default is never
reached by `calibrate_user`, which guards on at least 50 samples). -/
def listMax : List ℚ → ℚ
  | [] => 0
  | x :: xs => xs.foldl max x

/-- posture_core.py `calibrate_user` (lines 190-217), after the camera loop has
collected `angles`: if fewer than 50 samples, return None and write nothing;
otherwise build the baseline (mean, fixed tolerance 10, sample count, min, max)
and persist it.  The persisted baseline file is embedded as the second
component: input `persisted` is the prior file content, the output's second
component is the file content after the call. -/
def calibrate_user (angles : List ℚ) (persisted : Option (Baseline ℚ)) :
    Option (Baseline ℚ) × Option (Baseline ℚ) :=
  if angles.length < 50 then (none, persisted)
  else
    let avg := angles.sum / (angles.length : ℚ)
    let b : Baseline ℚ := ⟨avg, 10, angles.length, listMin angles, listMax angles⟩
    (some b, some b)

/-- Per-tick feature updates of main.py `main_loop` (lines 174-196): only when
a person is detected (`analyzed = some (status, angle)`, the result of
`analyzer.analyze`) are `alerts.check`, `breaks.check` and `logger.record`
invoked; on a no-detection tick all three states are left untouched. -/
def main_tick (analyzed : Option (Status × ℚ)) (now : ℚ)
    (alerts : AlertState) (breaks : BreakState) (logger : LoggerState) :
    AlertState × BreakState × LoggerState :=
  match analyzed with
  | some (status, angle) =>
      (AlertManager.check alerts status now,
       BreakReminder.check breaks now,
       SessionLogger.record logger status angle now)
  | none => (alerts, breaks, logger)

/-- Run of features.py `AlertManager` on consecutive BAD ticks at 1-second
spacing from fresh state: tick i+1 is `check` with status BAD at time i. -/
def alertSim : ℕ → AlertState
  | 0 => AlertState.init
  | n + 1 => AlertManager.check (alertSim n) Status.BAD (n : ℚ)

/-- Status sequence for the reset scenario: BAD at ticks 0-178, GOOD at tick
179, BAD at ticks 180-360. -/
def c3Status (i : ℕ) : Status :=
  if i = 179 then Status.GOOD else Status.BAD

/-- Run of features.py `AlertManager` on the 179-BAD / 1-GOOD / 181-BAD
sequence at 1-second spacing from fresh state. -/
def alertSimC3 : ℕ → AlertState
  | 0 => AlertState.init
  | n + 1 => AlertManager.check (alertSimC3 n) (c3Status n) (n : ℚ)

/- Helper lemmas characterizing one `AlertManager.check` step. -/

theorem AlertManager.check_bad_of_lt (b now : ℚ) (la : Option ℚ) (k : ℕ)
    (h : now - b < BAD_DURATION) :
    AlertManager.check ⟨some b, la, k⟩ Status.BAD now = ⟨some b, la, k⟩ := by
  simp [AlertManager.check, h.not_le]

theorem AlertManager.check_bad_fresh (now : ℚ) (la : Option ℚ) (k : ℕ) :
    AlertManager.check ⟨none, la, k⟩ Status.BAD now = ⟨some now, la, k⟩ := by
  norm_num [AlertManager.check, BAD_DURATION]

theorem AlertManager.check_bad_fire_none (b now : ℚ) (k : ℕ)
    (h : BAD_DURATION ≤ now - b) :
    AlertManager.check ⟨some b, none, k⟩ Status.BAD now = ⟨some b, some now, k + 1⟩ := by
  simp [AlertManager.check, h]

theorem AlertManager.check_bad_fire_some (b la now : ℚ) (k : ℕ)
    (h : BAD_DURATION ≤ now - b) (hc : ALERT_COOLDOWN ≤ now - la) :
    AlertManager.check ⟨some b, some la, k⟩ Status.BAD now = ⟨some b, some now, k + 1⟩ := by
  simp [AlertManager.check, h, hc]

theorem AlertManager.check_bad_hold (b la now : ℚ) (k : ℕ)
    (h : BAD_DURATION ≤ now - b) (hc : now - la < ALERT_COOLDOWN) :
    AlertManager.check ⟨some b, some la, k⟩ Status.BAD now = ⟨some b, some la, k⟩ := by
  simp [AlertManager.check, h, hc.not_le]

theorem AlertManager.check_good (s : AlertState) (now : ℚ) :
    AlertManager.check s Status.GOOD now = ⟨none, s.last_alert, s.alert_count⟩ := by
  simp [AlertManager.check]

/- Closed forms for the all-BAD run (claim C2 scenario). -/

theorem alertSim_succ_le (n : ℕ) (h : n ≤ 179) :
    alertSim (n + 1) = ⟨some 0, none, 0⟩ := by
  induction n with
  | zero =>
      show AlertManager.check AlertState.init Status.BAD ((0 : ℕ) : ℚ) = _
      rw [AlertState.init, AlertManager.check_bad_fresh]
      norm_num
  | succ m ih =>
      have hm : ((m : ℚ) + 1) - 0 < BAD_DURATION := by
        have : (m : ℚ) + 1 ≤ 179 := by exact_mod_cast h
        rw [BAD_DURATION]; linarith
      show AlertManager.check (alertSim (m + 1)) Status.BAD ((m + 1 : ℕ) : ℚ) = _
      rw [ih (by omega)]
      rw [show ((m + 1 : ℕ) : ℚ) = (m : ℚ) + 1 by push_cast; ring]
      exact AlertManager.check_bad_of_lt 0 _ none 0 hm

theorem alertSim_le180 (n : ℕ) (h1 : 1 ≤ n) (h2 : n ≤ 180) :
    alertSim n = ⟨some 0, none, 0⟩ := by
  obtain ⟨m, rfl⟩ : ∃ m, n = m + 1 := ⟨n - 1, by omega⟩
  exact alertSim_succ_le m (by omega)

theorem alertSim_181 : alertSim 181 = ⟨some 0, some 180, 1⟩ := by
  have h180 : alertSim 180 = ⟨some 0, none, 0⟩ := alertSim_le180 180 (by norm_num) le_rfl
  have hd : BAD_DURATION ≤ ((180 : ℕ) : ℚ) - 0 := by rw [BAD_DURATION]; norm_num
  show AlertManager.check (alertSim 180) Status.BAD ((180 : ℕ) : ℚ) = _
  rw [h180, AlertManager.check_bad_fire_none 0 _ 0 hd]
  norm_num

theorem alertSim_mid (n : ℕ) (h1 : 181 ≤ n) (h2 : n ≤ 480) :
    alertSim n = ⟨some 0, some 180, 1⟩ := by
  induction n, h1 using Nat.le_induction with
  | base => exact alertSim_181
  | succ n hn ih =>
      have h' := ih (by omega)
      have hd : BAD_DURATION ≤ (n : ℚ) - 0 := by
        have : (181 : ℚ) ≤ n := by exact_mod_cast hn
        rw [BAD_DURATION]; linarith
      have hc : (n : ℚ) - 180 < ALERT_COOLDOWN := by
        have : (n : ℚ) ≤ 479 := by exact_mod_cast (by omega : n ≤ 479)
        rw [ALERT_COOLDOWN]; linarith
      show AlertManager.check (alertSim n) Status.BAD ((n : ℕ) : ℚ) = _
      rw [h', AlertManager.check_bad_hold 0 180 _ 1 hd hc]

theorem alertSim_481 : alertSim 481 = ⟨some 0, some 480, 2⟩ := by
  have h480 : alertSim 480 = ⟨some 0, some 180, 1⟩ := alertSim_mid 480 (by norm_num) le_rfl
  have hd : BAD_DURATION ≤ ((480 : ℕ) : ℚ) - 0 := by rw [BAD_DURATION]; norm_num
  have hc : ALERT_COOLDOWN ≤ ((480 : ℕ) : ℚ) - 180 := by rw [ALERT_COOLDOWN]; norm_num
  show AlertManager.check (alertSim 480) Status.BAD ((480 : ℕ) : ℚ) = _
  rw [h480, AlertManager.check_bad_fire_some 0 180 _ 1 hd hc]
  norm_num

/-- C2: fed 181 consecutive BAD ticks at 1-second spacing from fresh state,
the AlertManager fires exactly one alert, at tick 181 (count is 0 after 180
ticks and 1 after 181, with `last_alert = 180`); over the further 300 BAD
ticks no second alert fires until elapsed time since the last alert reaches
ALERT_COOLDOWN = 300 s (count stays 1 through tick 480), after which exactly
one more fires (count is 2 at tick 481); and firing never clears
`bad_start`, which stays `some 0` for the whole run. -/
theorem alertManager_c2 :
    (alertSim 180).alert_count = 0 ∧
    (alertSim 181).alert_count = 1 ∧
    (alertSim 181).last_alert = some 180 ∧
    (∀ n, 181 ≤ n → n ≤ 480 → (alertSim n).alert_count = 1) ∧
    (alertSim 481).alert_count = 2 ∧
    (∀ n, 1 ≤ n → n ≤ 481 → (alertSim n).bad_start = some 0) := by
  refine ⟨?_, ?_, ?_, ?_, ?_, ?_⟩
  · rw [alertSim_le180 180 (by norm_num) le_rfl]
  · rw [alertSim_181]
  · rw [alertSim_181]
  · intro n h1 h2
    rw [alertSim_mid n h1 h2]
  · rw [alertSim_481]
  · intro n h1 h2
    rcases Nat.lt_or_ge n 181 with h | h
    · rw [alertSim_le180 n h1 (by omega)]
    · rcases Nat.lt_or_ge n 481 with h' | h'
      · rw [alertSim_mid n h (by omega)]
      · have : n = 481 := by omega
        subst this
        rw [alertSim_481]

/-- Witness for C2: the universally quantified conjuncts instantiated at
concrete tick counts. -/
theorem alertManager_c2_witness :
    ((181 ≤ 300 ∧ 300 ≤ 480) ∧ (alertSim 300).alert_count = 1) ∧
    ((1 ≤ 481 ∧ 481 ≤ 481) ∧ (alertSim 481).bad_start = some 0) :=
  ⟨⟨⟨by norm_num, by norm_num⟩,
    alertManager_c2.2.2.2.1 300 (by norm_num) (by norm_num)⟩,
   ⟨⟨by norm_num, by norm_num⟩,
    alertManager_c2.2.2.2.2.2 481 (by norm_num) (by norm_num)⟩⟩

/- Closed forms for the 179-BAD / 1-GOOD / 181-BAD run (claim C3 scenario). -/

theorem alertSimC3_succ_le (n : ℕ) (h : n ≤ 178) :
    alertSimC3 (n + 1) = ⟨some 0, none, 0⟩ := by
  induction n with
  | zero =>
      show AlertManager.check AlertState.init (c3Status 0) ((0 : ℕ) : ℚ) = _
      rw [show c3Status 0 = Status.BAD by rw [c3Status, if_neg (by omega)]]
      rw [AlertState.init, AlertManager.check_bad_fresh]
      norm_num
  | succ m ih =>
      have hm : ((m : ℚ) + 1) - 0 < BAD_DURATION := by
        have : (m : ℚ) + 1 ≤ 178 := by exact_mod_cast h
        rw [BAD_DURATION]; linarith
      show AlertManager.check (alertSimC3 (m + 1)) (c3Status (m + 1)) ((m + 1 : ℕ) : ℚ) = _
      rw [show c3Status (m + 1) = Status.BAD by rw [c3Status, if_neg (by omega)]]
      rw [ih (by omega)]
      rw [show ((m + 1 : ℕ) : ℚ) = (m : ℚ) + 1 by push_cast; ring]
      exact AlertManager.check_bad_of_lt 0 _ none 0 hm

theorem alertSimC3_180 : alertSimC3 180 = ⟨none, none, 0⟩ := by
  have h179 : alertSimC3 179 = ⟨some 0, none, 0⟩ := alertSimC3_succ_le 178 le_rfl
  show AlertManager.check (alertSimC3 179) (c3Status 179) ((179 : ℕ) : ℚ) = _
  rw [show c3Status 179 = Status.GOOD by rw [c3Status, if_pos rfl]]
  rw [h179, AlertManager.check_good]

theorem alertSimC3_181 : alertSimC3 181 = ⟨some 180, none, 0⟩ := by
  show AlertManager.check (alertSimC3 180) (c3Status 180) ((180 : ℕ) : ℚ) = _
  rw [show c3Status 180 = Status.BAD by rw [c3Status, if_neg (by omega)]]
  rw [alertSimC3_180, AlertManager.check_bad_fresh]
  norm_num

theorem alertSimC3_mid (n : ℕ) (h1 : 181 ≤ n) (h2 : n ≤ 360) :
    alertSimC3 n = ⟨some 180, none, 0⟩ := by
  induction n, h1 using Nat.le_induction with
  | base => exact alertSimC3_181
  | succ n hn ih =>
      have h' := ih (by omega)
      have hd : (n : ℚ) - 180 < BAD_DURATION := by
        have : (n : ℚ) ≤ 359 := by exact_mod_cast (by omega : n ≤ 359)
        rw [BAD_DURATION]; linarith
      show AlertManager.check (alertSimC3 n) (c3Status n) ((n : ℕ) : ℚ) = _
      rw [show c3Status n = Status.BAD by rw [c3Status, if_neg (by omega)]]
      rw [h', AlertManager.check_bad_of_lt 180 _ none 0 hd]

theorem alertSimC3_361 : alertSimC3 361 = ⟨some 180, some 360, 1⟩ := by
  have h360 : alertSimC3 360 = ⟨some 180, none, 0⟩ := alertSimC3_mid 360 (by norm_num) le_rfl
  have hd : BAD_DURATION ≤ ((360 : ℕ) : ℚ) - 180 := by rw [BAD_DURATION]; norm_num
  show AlertManager.check (alertSimC3 360) (c3Status 360) ((360 : ℕ) : ℚ) = _
  rw [show c3Status 360 = Status.BAD by rw [c3Status, if_neg (by omega)]]
  rw [h360, AlertManager.check_bad_fire_none 180 _ 0 hd]
  norm_num

/-- C3 counterexample: the claimed scenario (179 BAD ticks, one GOOD tick,
then 181 BAD ticks, 1-second spacing, 361 ticks in all) does fire one alert
— on the final tick the re-accumulated bad-posture duration is exactly
180 s, which meets the inclusive `duration >= BAD_DURATION` test — so the
claim's "no alert fires during the whole sequence" is false. -/
theorem alertManager_c3_counterexample : (alertSimC3 361).alert_count = 1 := by
  rw [alertSimC3_361]

/-- C3 amended: in the 179-BAD / 1-GOOD / 181-BAD run, the GOOD tick
unconditionally clears `bad_start` and accumulation restarts from zero at the
next BAD tick; consequently no alert fires during the first 360 ticks, and
exactly one alert fires at the final tick, when the restarted accumulation
reaches BAD_DURATION = 180 s. -/
theorem alertManager_c3_amended :
    (∀ n, n ≤ 360 → (alertSimC3 n).alert_count = 0) ∧
    (alertSimC3 361).alert_count = 1 ∧
    (alertSimC3 180).bad_start = none ∧
    (∀ n, 181 ≤ n → n ≤ 360 → (alertSimC3 n).bad_start = some 180) := by
  refine ⟨?_, ?_, ?_, ?_⟩
  · intro n hn
    rcases Nat.lt_or_ge n 1 with h1 | h1
    · have : n = 0 := by omega
      subst this
      rfl
    rcases Nat.lt_or_ge n 180 with h2 | h2
    · obtain ⟨m, rfl⟩ : ∃ m, n = m + 1 := ⟨n - 1, by omega⟩
      rw [alertSimC3_succ_le m (by omega)]
    rcases Nat.lt_or_ge n 181 with h3 | h3
    · have : n = 180 := by omega
      subst this
      rw [alertSimC3_180]
    · rw [alertSimC3_mid n h3 hn]
  · rw [alertSimC3_361]
  · rw [alertSimC3_180]
  · intro n h1 h2
    rw [alertSimC3_mid n h1 h2]

/-- Witness for C3 (amended): the universally quantified conjuncts
instantiated at tick 200. -/
theorem alertManager_c3_witness :
    ((200 : ℕ) ≤ 360 ∧ (alertSimC3 200).alert_count = 0) ∧
    ((181 ≤ 200 ∧ 200 ≤ 360) ∧ (alertSimC3 200).bad_start = some 180) :=
  ⟨⟨by norm_num, alertManager_c3_amended.1 200 (by norm_num)⟩,
   ⟨⟨by norm_num, by norm_num⟩,
    alertManager_c3_amended.2.2.2 200 (by norm_num) (by norm_num)⟩⟩

/-- C1: for every angle and every threshold pair with good > fair — and the
threshold pairs `PostureAnalyzer.analyze` actually derives (baseline or fixed
constants) all satisfy good > fair — the inclusive classifier maps the angle
to exactly one of GOOD, FAIR, BAD: `angle >= good` gives GOOD,
`fair <= angle < good` gives FAIR, `angle < fair` gives BAD, and the three
cases are exhaustive and non-overlapping (stated as three characterizing
iffs plus totality of the derived classification). -/
theorem classifyInclusive_partition :
    (∀ good fair angle : ℚ, fair < good →
      ((classifyInclusive good fair angle = Status.GOOD ↔ good ≤ angle) ∧
       (classifyInclusive good fair angle = Status.FAIR ↔ fair ≤ angle ∧ angle < good) ∧
       (classifyInclusive good fair angle = Status.BAD ↔ angle < fair))) ∧
    (∀ baseline : Option (Baseline ℚ),
      (analyzeThresholds baseline).2 < (analyzeThresholds baseline).1) ∧
    (∀ (baseline : Option (Baseline ℚ)) (angle : ℚ),
      analyzeStatus baseline angle = Status.GOOD ∨
      analyzeStatus baseline angle = Status.FAIR ∨
      analyzeStatus baseline angle = Status.BAD) := by
  refine ⟨?_, ?_, ?_⟩
  · intro good fair angle hfg
    unfold classifyInclusive
    split_ifs with h1 h2
    · exact ⟨iff_of_true rfl h1,
        iff_of_false (by simp) (fun hc => absurd h1 (not_le.2 hc.2)),
        iff_of_false (by simp) (fun hc => absurd h1 (not_le.2 (hc.trans hfg)))⟩
    · exact ⟨iff_of_false (by simp) h1,
        iff_of_true rfl ⟨h2, not_le.1 h1⟩,
        iff_of_false (by simp) (fun hc => absurd h2 (not_le.2 hc))⟩
    · exact ⟨iff_of_false (by simp) h1,
        iff_of_false (by simp) (fun hc => h2 hc.1),
        iff_of_true rfl (not_le.1 h2)⟩
  · intro baseline
    cases baseline with
    | none => simp [analyzeThresholds, GOOD_ANGLE, FAIR_ANGLE]; norm_num
    | some b => simp [analyzeThresholds]; linarith
  · intro baseline angle
    unfold analyzeStatus classifyInclusive
    split_ifs <;> simp

/-- Witness for C1: with the fixed thresholds (170, 160) — a pair with
good > fair — the angle 165 is classified FAIR. -/
theorem classifyInclusive_partition_witness :
    ((160 : ℚ) < 170) ∧ classifyInclusive (170 : ℚ) 160 165 = Status.FAIR :=
  ⟨by norm_num,
   ((classifyInclusive_partition.1 170 160 165 (by norm_num)).2.1).mpr
     ⟨by norm_num, by norm_num⟩⟩

/-- C5 counterexample: for the baseline {good_angle = 170, tolerance = 5},
`PostureAnalyzer.analyze` classifies angle 162 as GOOD (its good threshold is
the constant-offset 170 − 10 = 160), while the claimed rule
good_threshold = good_angle − tolerance = 165 classifies 162 as FAIR: the
GOOD/FAIR boundary does not move with the tolerance. -/
theorem analyze_tolerance_counterexample :
    analyzeStatus (some ⟨170, 5, 60, 168, 172⟩) 162 = Status.GOOD ∧
    classifySpecBaseline ⟨170, 5, 60, 168, 172⟩ 162 = Status.FAIR := by
  constructor
  · norm_num [analyzeStatus, analyzeThresholds, classifyInclusive]
  · norm_num [classifySpecBaseline, classifyInclusive]

/-- C5 amended: with a baseline, `PostureAnalyzer.analyze` uses
good_threshold = good_angle − 10 (a constant offset — the tolerance field is
ignored, so two baselines with equal good_angle classify identically whatever
their tolerances) and fair_threshold = good_angle − 20; only the legacy
single-file `check_posture` uses good_threshold = good_angle − tolerance
(its GOOD results are exactly the angles strictly above good_angle − tolerance). -/
theorem analyze_baseline_thresholds :
    (∀ (b : Baseline ℚ) (angle : ℚ),
      analyzeStatus (some b) angle =
        classifyInclusive (b.good_angle - 10) (b.good_angle - 20) angle) ∧
    (∀ (b₁ b₂ : Baseline ℚ) (angle : ℚ), b₁.good_angle = b₂.good_angle →
      analyzeStatus (some b₁) angle = analyzeStatus (some b₂) angle) ∧
    (∀ (b : Baseline ℚ) (angle : ℚ),
      check_posture_status b angle = Status.GOOD ↔ b.good_angle - b.tolerance < angle) := by
  refine ⟨?_, ?_, ?_⟩
  · intro b angle
    rfl
  · intro b₁ b₂ angle h
    simp [analyzeStatus, analyzeThresholds, h]
  · intro b angle
    unfold check_posture_status classifyStrict checkPostureThresholds
    split_ifs with h1 h2
    · exact iff_of_true rfl h1
    · exact iff_of_false (by simp) h1
    · exact iff_of_false (by simp) h1

/-- Witness for C5 (amended): two baselines sharing good_angle = 170 but with
tolerances 5 and 10 classify the angle 162 identically. -/
theorem analyze_baseline_thresholds_witness :
    (⟨170, 5, 60, 168, 172⟩ : Baseline ℚ).good_angle =
      (⟨170, 10, 60, 168, 172⟩ : Baseline ℚ).good_angle ∧
    analyzeStatus (some ⟨170, 5, 60, 168, 172⟩) 162 =
      analyzeStatus (some ⟨170, 10, 60, 168, 172⟩) 162 :=
  ⟨rfl, analyze_baseline_thresholds.2.1 _ _ 162 rfl⟩

/-- C4: for every triple of points, `calculate_angle` (difference of two atan2
values converted to degrees, absolute value, reflex correction) returns a
value in the closed interval [0, 180]. -/
theorem calculate_angle_range (a b c : Landmark) :
    0 ≤ calculate_angle a b c ∧ calculate_angle a b c ≤ 180 := by
  have h1 : |atan2 (c.y - b.y) (c.x - b.x)| ≤ Real.pi := Complex.abs_arg_le_pi _
  have h2 : |atan2 (a.y - b.y) (a.x - b.x)| ≤ Real.pi := Complex.abs_arg_le_pi _
  have hpi : (0 : ℝ) < Real.pi := Real.pi_pos
  set t1 := atan2 (c.y - b.y) (c.x - b.x)
  set t2 := atan2 (a.y - b.y) (a.x - b.x)
  have hr : |t1 - t2| ≤ 2 * Real.pi := by
    calc |t1 - t2| = |t1 + -t2| := by rw [sub_eq_add_neg]
    _ ≤ |t1| + |-t2| := abs_add _ _
    _ = |t1| + |t2| := by rw [abs_neg]
    _ ≤ 2 * Real.pi := by linarith
  have hA_nonneg : 0 ≤ |(t1 - t2) * 180 / Real.pi| := abs_nonneg _
  have hA_le : |(t1 - t2) * 180 / Real.pi| ≤ 360 := by
    rw [abs_div, abs_mul, abs_of_pos hpi]
    have hnum : |t1 - t2| * |(180 : ℝ)| ≤ 2 * Real.pi * 180 := by
      rw [abs_of_nonneg (by norm_num : (0 : ℝ) ≤ 180)]
      exact mul_le_mul_of_nonneg_right hr (by norm_num)
    calc |t1 - t2| * |(180 : ℝ)| / Real.pi ≤ 2 * Real.pi * 180 / Real.pi :=
          (div_le_div_iff_of_pos_right hpi).2 hnum
    _ = 360 := by field_simp; ring
  have hrw : calculate_angle a b c =
      (if 180 < |(t1 - t2) * 180 / Real.pi| then 360 - |(t1 - t2) * 180 / Real.pi|
       else |(t1 - t2) * 180 / Real.pi|) := rfl
  rw [hrw]
  split_ifs with h
  · constructor <;> linarith
  · exact ⟨hA_nonneg, not_lt.1 h⟩

/-- C6: whenever any of the three required landmarks (LEFT_EAR = 7,
LEFT_SHOULDER = 11, LEFT_HIP = 23) is absent from the landmark collection,
`check_posture` returns (UNKNOWN, 0) — never an error and never a
GOOD/FAIR/BAD tier. -/
theorem check_posture_missing (landmarks : ℕ → Option Landmark)
    (baseline : Option (Baseline ℝ))
    (h : landmarks 7 = none ∨ landmarks 11 = none ∨ landmarks 23 = none) :
    check_posture landmarks baseline = (Status.UNKNOWN, 0) := by
  rcases h7 : landmarks 7 with _ | ear
  · cases h11 : landmarks 11 <;> cases h23 : landmarks 23 <;>
      simp [check_posture, h7, h11, h23]
  · rcases h11 : landmarks 11 with _ | shoulder
    · cases h23 : landmarks 23 <;> simp [check_posture, h7, h11, h23]
    · rcases h23 : landmarks 23 with _ | hip
      · simp [check_posture, h7, h11, h23]
      · exfalso
        rcases h with h | h | h
        · rw [h7] at h; exact Option.some_ne_none ear h
        · rw [h11] at h; exact Option.some_ne_none shoulder h
        · rw [h23] at h; exact Option.some_ne_none hip h

/-- Witness for C6: the empty landmark collection is missing the left ear, and
`check_posture` on it returns (UNKNOWN, 0). -/
theorem check_posture_missing_witness :
    (fun _ => none : ℕ → Option Landmark) 7 = none ∧
    check_posture (fun _ => none) none = (Status.UNKNOWN, 0) :=
  ⟨rfl, check_posture_missing (fun _ => none) none (Or.inl rfl)⟩

/- Helper lemmas about round-half-to-even and the status counts. -/

theorem round_half_even_bounds (x : ℚ) :
    ⌊x⌋ ≤ round_half_even x ∧ round_half_even x ≤ ⌈x⌉ := by
  unfold round_half_even
  have hfc : ⌊x⌋ ≤ ⌈x⌉ := Int.floor_le_ceil x
  split_ifs with h1 h2 h3
  · exact ⟨le_rfl, hfc⟩
  · have hlt : (⌊x⌋ : ℚ) < x := by linarith
    have : ⌊x⌋ < ⌈x⌉ := Int.lt_ceil.2 hlt
    exact ⟨by omega, by omega⟩
  · exact ⟨le_rfl, hfc⟩
  · have heq : x - ⌊x⌋ = 1 / 2 := le_antisymm (not_lt.1 h2) (not_lt.1 h1)
    have hlt : (⌊x⌋ : ℚ) < x := by linarith
    have : ⌊x⌋ < ⌈x⌉ := Int.lt_ceil.2 hlt
    exact ⟨by omega, by omega⟩

theorem round_half_even_intCast (n : ℤ) : round_half_even (n : ℚ) = n := by
  unfold round_half_even
  rw [Int.floor_intCast, if_pos]
  rw [sub_self]
  norm_num

theorem countStatus_sum_le (log : List LogEntry) :
    countStatus Status.GOOD log + countStatus Status.FAIR log +
      countStatus Status.BAD log ≤ log.length := by
  induction log with
  | nil => simp [countStatus]
  | cons e l ih =>
      unfold countStatus at ih ⊢
      rw [List.countP_cons, List.countP_cons, List.countP_cons, List.length_cons]
      cases he : e.status <;> simp [he] <;> omega

/-- C7: `SessionLogger.get_score` returns 0 on the empty log; on every
non-empty log it returns the weighted formula
(good·100 + fair·60 + bad·20) / total rounded to one decimal, a value in
[0, 100]; a log of one GOOD entry scores 100; and a log with equal nonzero
counts of GOOD, FAIR and BAD (and nothing else) scores 60. -/
theorem get_score_spec :
    SessionLogger.get_score [] = 0 ∧
    (∀ log : List LogEntry, log ≠ [] →
      SessionLogger.get_score log =
        pyRound 1
          (((countStatus Status.GOOD log * 100 + countStatus Status.FAIR log * 60 +
              countStatus Status.BAD log * 20 : ℕ) : ℚ) / (log.length : ℚ)) ∧
      0 ≤ SessionLogger.get_score log ∧ SessionLogger.get_score log ≤ 100) ∧
    (∀ e : LogEntry, e.status = Status.GOOD → SessionLogger.get_score [e] = 100) ∧
    (∀ (log : List LogEntry) (k : ℕ), 0 < k →
      countStatus Status.GOOD log = k → countStatus Status.FAIR log = k →
      countStatus Status.BAD log = k → log.length = 3 * k →
      SessionLogger.get_score log = 60) := by
  have score_eq : ∀ log : List LogEntry, log ≠ [] →
      SessionLogger.get_score log =
        pyRound 1
          (((countStatus Status.GOOD log * 100 + countStatus Status.FAIR log * 60 +
              countStatus Status.BAD log * 20 : ℕ) : ℚ) / (log.length : ℚ)) := by
    intro log h
    obtain ⟨x, xs, rfl⟩ := List.exists_cons_of_ne_nil h
    simp [SessionLogger.get_score]
  have pyRound1_bounds : ∀ q : ℚ, 0 ≤ q → q ≤ 100 → 0 ≤ pyRound 1 q ∧ pyRound 1 q ≤ 100 := by
    intro q hq0 hq100
    have hb := round_half_even_bounds (q * 10 ^ (1 : ℕ))
    have hfl : (0 : ℤ) ≤ ⌊q * 10 ^ (1 : ℕ)⌋ := Int.floor_nonneg.2 (by positivity)
    have hcl : ⌈q * 10 ^ (1 : ℕ)⌉ ≤ 1000 := Int.ceil_le.2 (by push_cast; nlinarith)
    have h0 : (0 : ℤ) ≤ round_half_even (q * 10 ^ (1 : ℕ)) := le_trans hfl hb.1
    have h1000 : round_half_even (q * 10 ^ (1 : ℕ)) ≤ 1000 := le_trans hb.2 hcl
    unfold pyRound
    constructor
    · apply div_nonneg _ (by positivity)
      exact_mod_cast h0
    · rw [div_le_iff₀ (by positivity)]
      have h' : ((round_half_even (q * 10 ^ (1 : ℕ)) : ℚ)) ≤ 1000 := by exact_mod_cast h1000
      calc ((round_half_even (q * 10 ^ (1 : ℕ)) : ℚ)) ≤ 1000 := h'
      _ ≤ 100 * 10 ^ (1 : ℕ) := by norm_num
  refine ⟨rfl, ?_, ?_, ?_⟩
  · intro log h
    refine ⟨score_eq log h, ?_⟩
    have hn : 0 < log.length := List.length_pos.2 h
    have hsum := countStatus_sum_le log
    set g := countStatus Status.GOOD log with hg
    set f := countStatus Status.FAIR log with hf
    set b := countStatus Status.BAD log with hbdef
    have hq0 : (0 : ℚ) ≤ ((g * 100 + f * 60 + b * 20 : ℕ) : ℚ) / (log.length : ℚ) :=
      div_nonneg (by positivity) (by positivity)
    have hq100 : ((g * 100 + f * 60 + b * 20 : ℕ) : ℚ) / (log.length : ℚ) ≤ 100 := by
      rw [div_le_iff₀ (by exact_mod_cast hn)]
      have hc : ((g : ℚ) + f + b) ≤ (log.length : ℚ) := by exact_mod_cast hsum
      have hg0 : (0 : ℚ) ≤ g := by positivity
      have hf0 : (0 : ℚ) ≤ f := by positivity
      have hb0 : (0 : ℚ) ≤ b := by positivity
      push_cast
      linarith
    rw [score_eq log h]
    exact pyRound1_bounds _ hq0 hq100
  · intro e he
    have h1 : SessionLogger.get_score [e] = pyRound 1 (((1 * 100 + 0 * 60 + 0 * 20 : ℕ) : ℚ) / ((1 : ℕ) : ℚ)) := by
      rw [score_eq [e] (by simp)]
      simp [countStatus, he]
    rw [h1]
    have h2 : (((1 * 100 + 0 * 60 + 0 * 20 : ℕ) : ℚ) / ((1 : ℕ) : ℚ)) * 10 ^ (1 : ℕ) =
        ((1000 : ℤ) : ℚ) := by norm_num
    unfold pyRound
    rw [h2, round_half_even_intCast]
    norm_num
  · intro log k hk hg hf hb hlen
    have hne : log ≠ [] := by
      intro h
      subst h
      simp at hlen
      omega
    have hk' : ((k : ℚ)) ≠ 0 := Nat.cast_ne_zero.2 hk.ne'
    rw [score_eq log hne, hg, hf, hb, hlen]
    have h2 : (((k * 100 + k * 60 + k * 20 : ℕ) : ℚ) / ((3 * k : ℕ) : ℚ)) * 10 ^ (1 : ℕ) =
        ((600 : ℤ) : ℚ) := by
      push_cast
      field_simp
      ring
    unfold pyRound
    rw [h2, round_half_even_intCast]
    norm_num

/-- Witness for C7: a singleton GOOD log scores 100, and the concrete log
with one entry of each of GOOD, FAIR, BAD scores 60. -/
theorem get_score_spec_witness :
    (⟨0, Status.GOOD, 170⟩ : LogEntry).status = Status.GOOD ∧
    SessionLogger.get_score [⟨0, Status.GOOD, 170⟩] = 100 ∧
    SessionLogger.get_score
      [⟨0, Status.GOOD, 170⟩, ⟨5, Status.FAIR, 165⟩, ⟨10, Status.BAD, 150⟩] = 60 :=
  ⟨rfl, get_score_spec.2.2.1 ⟨0, Status.GOOD, 170⟩ rfl,
   get_score_spec.2.2.2
     [⟨0, Status.GOOD, 170⟩, ⟨5, Status.FAIR, 165⟩, ⟨10, Status.BAD, 150⟩] 1
     (by norm_num) (by decide) (by decide) (by decide) (by decide)⟩

/-- C8 counterexample: from the state with `last_record = 0` and empty log
(the state a fresh `SessionLogger` constructed at time 0 has), two `record`
calls at times 1 and 2 — less than RECORD_EVERY = 5 seconds apart — append
no entry at all, not exactly one: both calls are within 5 s of
`last_record`, so the claimed "exactly one entry in total" fails. -/
theorem record_decimation_counterexample :
    (SessionLogger.record (SessionLogger.record ⟨[], 0⟩ Status.GOOD 170 1)
        Status.GOOD 170 2).log.length = 0 := by
  norm_num [SessionLogger.record, RECORD_EVERY]

/-- C8 amended: an entry is appended exactly when at least RECORD_EVERY = 5
seconds have elapsed since `last_record` (which appending updates to `now`);
consequently two `record` calls less than 5 seconds apart append at most one
entry in total, and exactly one when the first call is itself eligible. -/
theorem record_decimation :
    (∀ (s : LoggerState) (status : Status) (angle now : ℚ),
      (SessionLogger.record s status angle now).log =
        (if RECORD_EVERY ≤ now - s.last_record
         then s.log ++ [⟨now, status, pyRound 2 angle⟩] else s.log)) ∧
    (∀ (s : LoggerState) (st₁ : Status) (a₁ t₁ : ℚ) (st₂ : Status) (a₂ t₂ : ℚ),
      t₂ - t₁ < RECORD_EVERY →
      (SessionLogger.record (SessionLogger.record s st₁ a₁ t₁) st₂ a₂ t₂).log.length ≤
        s.log.length + 1) ∧
    (∀ (s : LoggerState) (st₁ : Status) (a₁ t₁ : ℚ) (st₂ : Status) (a₂ t₂ : ℚ),
      RECORD_EVERY ≤ t₁ - s.last_record → t₂ - t₁ < RECORD_EVERY →
      (SessionLogger.record (SessionLogger.record s st₁ a₁ t₁) st₂ a₂ t₂).log.length =
        s.log.length + 1) := by
  refine ⟨?_, ?_, ?_⟩
  · intro s status angle now
    unfold SessionLogger.record
    split_ifs <;> rfl
  · intro s st₁ a₁ t₁ st₂ a₂ t₂ hgap
    unfold SessionLogger.record
    split_ifs with h1 h2 h3
    · exfalso
      have h2' : RECORD_EVERY ≤ t₂ - t₁ := h2
      linarith
    · simp
    · simp
    · exact Nat.le_succ _
  · intro s st₁ a₁ t₁ st₂ a₂ t₂ h1 hgap
    unfold SessionLogger.record
    rw [if_pos h1]
    rw [if_neg (by simp only []; exact not_le.2 (by linarith))]
    simp

/-- Witness for C8 (amended): from `last_record = 0`, calls at times 5 and 6
(gap 1 < 5, first call eligible) append exactly one entry. -/
theorem record_decimation_witness :
    (RECORD_EVERY ≤ (5 : ℚ) - (⟨[], 0⟩ : LoggerState).last_record ∧
      (6 : ℚ) - 5 < RECORD_EVERY) ∧
    (SessionLogger.record (SessionLogger.record ⟨[], 0⟩ Status.GOOD 170 5)
        Status.BAD 150 6).log.length = ([] : List LogEntry).length + 1 :=
  ⟨⟨by norm_num [RECORD_EVERY], by norm_num [RECORD_EVERY]⟩,
   record_decimation.2.2 ⟨[], 0⟩ Status.GOOD 170 5 Status.BAD 150 6
     (by norm_num [RECORD_EVERY]) (by norm_num [RECORD_EVERY])⟩

/-- C9: a calibration run that collected fewer than 50 angle samples returns
none and leaves the persisted baseline exactly as it was (no file written). -/
theorem calibrate_user_insufficient (angles : List ℚ) (persisted : Option (Baseline ℚ))
    (h : angles.length < 50) :
    calibrate_user angles persisted = (none, persisted) := by
  unfold calibrate_user
  rw [if_pos h]

/-- Witness for C9: an empty sample list (0 < 50 samples) returns none and
leaves a previously persisted baseline untouched. -/
theorem calibrate_user_insufficient_witness :
    ([] : List ℚ).length < 50 ∧
    calibrate_user [] (some ⟨175, 10, 60, 170, 179⟩) =
      (none, some ⟨175, 10, 60, 170, 179⟩) :=
  ⟨by norm_num, calibrate_user_insufficient [] (some ⟨175, 10, 60, 170, 179⟩) (by norm_num)⟩

/-- C10: in the modular main loop's per-tick body, a tick with no detected
person leaves the alert, break and logger states untouched — in particular
`break_count` is unchanged even when more than BREAK_INTERVAL seconds have
elapsed since the last break reminder — whereas on a detected tick with the
same elapsed time the break reminder does fire and increments `break_count`. -/
theorem main_tick_no_detection :
    (∀ (a : AlertState) (b : BreakState) (l : LoggerState) (now : ℚ),
      main_tick none now a b l = (a, b, l)) ∧
    (∀ (a : AlertState) (b : BreakState) (l : LoggerState) (now : ℚ),
      BREAK_INTERVAL ≤ now - b.last_break →
      (main_tick none now a b l).2.1.break_count = b.break_count) ∧
    (∀ (a : AlertState) (b : BreakState) (l : LoggerState) (now : ℚ)
        (st : Status) (ang : ℚ),
      BREAK_INTERVAL ≤ now - b.last_break →
      (main_tick (some (st, ang)) now a b l).2.1.break_count = b.break_count + 1) := by
  refine ⟨fun a b l now => rfl, fun a b l now _ => rfl, ?_⟩
  intro a b l now st ang h
  simp [main_tick, BreakReminder.check, h]

/-- Witness for C10: at time 1800 with `last_break = 0` (BREAK_INTERVAL
elapsed), a no-detection tick leaves `break_count` at 0 while a detected tick
raises it to 1. -/
theorem main_tick_no_detection_witness :
    (BREAK_INTERVAL ≤ (1800 : ℚ) - (⟨0, 0⟩ : BreakState).last_break) ∧
    (main_tick none 1800 ⟨none, none, 0⟩ ⟨0, 0⟩ ⟨[], 0⟩).2.1.break_count = 0 ∧
    (main_tick (some (Status.GOOD, 170)) 1800 ⟨none, none, 0⟩ ⟨0, 0⟩
        ⟨[], 0⟩).2.1.break_count = 0 + 1 :=
  ⟨by norm_num [BREAK_INTERVAL],
   main_tick_no_detection.2.1 ⟨none, none, 0⟩ ⟨0, 0⟩ ⟨[], 0⟩ 1800
     (by norm_num [BREAK_INTERVAL]),
   main_tick_no_detection.2.2 ⟨none, none, 0⟩ ⟨0, 0⟩ ⟨[], 0⟩ 1800 Status.GOOD 170
     (by norm_num [BREAK_INTERVAL])⟩
